import Mathlib

/-!
Shallow embedding of the solar inverter digital twin engine
(`src/inverter_digital_twin.py`).  Real numbers of the Python code are
modelled as rationals; pandas columns become fields of a `Row` record and
column-wise operations become per-row functions mapped over lists.
-/

namespace DigitalTwin

/-- Model parameters: hard-coded constants of the script (lines 40-42). -/
structure Params where
  pdc0 : ℚ
  gamma : ℚ
  invEff : ℚ
deriving Repr, DecidableEq

/-- Constants `PDC0 = 6000`, `GAMMA = -0.004`, `INV_EFF = 0.95` (lines 40-42). -/
def defaultParams : Params := ⟨6000, -(4/1000), 95/100⟩

/-- One telemetry row of an uploaded CSV: the required columns
`Irradiance`, `Module_Temp`, `V_dc`, `I_dc`, `P_ac` plus the parsed
`Time` index (lines 21-23). -/
structure Row where
  time : ℚ
  irradiance : ℚ
  moduleTemp : ℚ
  vdc : ℚ
  idc : ℚ
  pac : ℚ
deriving Repr, DecidableEq

/-- Helper to build a row when only time, irradiance, temperature and
actual power matter. -/
def mkRow (t irr temp pac : ℚ) : Row := ⟨t, irr, temp, 0, 0, pac⟩

/-- Column `Expected_AC_Power` (lines 46-48):
`PDC0 * (Irradiance/1000) * (1 + GAMMA*(Module_Temp-25)) * INV_EFF`. -/
def expectedACPower (p : Params) (irr temp : ℚ) : ℚ :=
  p.pdc0 * (irr / 1000) * (1 + p.gamma * (temp - 25)) * p.invEff

/-- The denominator used for the deviation: `Expected_AC_Power.replace(0, 1)`
(line 49) substitutes 1 for an expected power of exactly 0. -/
def denomGuard (x : ℚ) : ℚ := if x = 0 then 1 else x

/-- Column `Deviation (%)` (line 49):
`100 * (P_ac - Expected_AC_Power) / Expected_AC_Power.replace(0, 1)`. -/
def deviationPct (actual expected : ℚ) : ℚ :=
  100 * (actual - expected) / denomGuard expected

/-- Column `Status` (line 50): `"OK" if abs(x) < 10 else "Alert"`. -/
def statusOf (dev : ℚ) : String := if |dev| < 10 then "OK" else "Alert"

/-- One row of the processed dataframe: the original columns together with
the derived `Expected_AC_Power`, `Deviation (%)`, `Status` and `Inverter`
columns (lines 46-52). -/
structure ProcessedRow where
  row : Row
  expected : ℚ
  deviation : ℚ
  status : String
  inverter : String
deriving Repr, DecidableEq

/-- Derivation of one processed row (lines 46-52). -/
def processRow (name : String) (r : Row) : ProcessedRow :=
  let e := expectedACPower defaultParams r.irradiance r.moduleTemp
  let d := deviationPct r.pac e
  ⟨r, e, d, statusOf d, name⟩

/-- Per-file processing: every row of the dataframe gets the derived
columns (lines 45-53). -/
def processFile (name : String) (rows : List Row) : List ProcessedRow :=
  rows.map (processRow name)

/-- Fleet dataset `df_all = pd.concat(processed)` (line 55): files are processed in
upload order and concatenated block after block. -/
def concatAll (files : List (String × List Row)) : List ProcessedRow :=
  (files.map fun nf => processFile nf.1 nf.2).flatten

/-- Alert stream `alerts = df_all[df_all["Status"] == "Alert"]` (line 125). -/
def alertsOf (files : List (String × List Row)) : List ProcessedRow :=
  (concatAll files).filter fun p => p.status = "Alert"

/-- Required columns checked at load time (line 23). -/
def requiredCols : List String :=
  ["Irradiance", "Module_Temp", "V_dc", "I_dc", "P_ac"]

/-- File validation (lines 21-27): a file is kept iff every required
column is present; its rows are stored exactly as parsed — no sorting and
no rejection of duplicate timestamps happens anywhere. -/
def validateFile (cols : List String) (rows : List Row) : Option (List Row) :=
  if requiredCols.all fun c => cols.contains c then some rows else none

/-- Sum of the `P_ac` column, `df['P_ac'].sum()` (lines 91-92). -/
def sumPac (rows : List Row) : ℚ := (rows.map Row.pac).sum

/-- Sum of the `Irradiance` column, `df['Irradiance'].sum()` (line 91). -/
def sumIrr (rows : List Row) : ℚ := (rows.map Row.irradiance).sum

/-- Metric `pr = (P_ac.sum() / (Irradiance.sum() * PDC0 / 1000)) * 100` (line 91). -/
def prValue (rows : List Row) : ℚ :=
  (sumPac rows / (sumIrr rows * defaultParams.pdc0 / 1000)) * 100

/-- Metric `cuf = (P_ac.sum() / (PDC0 * 3 * 24)) * 100` (line 92): the duration in
the denominator is the fixed 3-day window length, 72 hours. -/
def cufValue (rows : List Row) : ℚ :=
  (sumPac rows / (defaultParams.pdc0 * 3 * 24)) * 100

/-- The PR metric as shown: computed only when the window is nonempty
(line 89 guards `if not last_3days.empty`); no other guard exists. -/
def prMetric (rows : List Row) : Option ℚ :=
  if rows = [] then none else some (prValue rows)

/-- The CUF metric as shown: computed only when the window is nonempty
(line 89); no other guard exists. -/
def cufMetric (rows : List Row) : Option ℚ :=
  if rows = [] then none else some (cufValue rows)

/-- Spec-side actual energy: `Σ(actual_ac_power) * dt_hours`. -/
def actualEnergy (dt : ℚ) (rows : List Row) : ℚ := sumPac rows * dt

/-- Spec-side theoretical energy:
`rated_dc_capacity * Σ(irradiance/1000) * dt_hours`. -/
def theoreticalEnergy (dt : ℚ) (rows : List Row) : ℚ :=
  defaultParams.pdc0 * (rows.map fun r => r.irradiance / 1000).sum * dt

/-- Spec-side CUF: `actual_energy / (rated * sample_count * dt_hours)`. -/
def specCUF (dt : ℚ) (rows : List Row) : ℚ :=
  actualEnergy dt rows / (defaultParams.pdc0 * (rows.length * dt))

/-- Timestamps of a processed dataset, in dataset order. -/
def timesOf (l : List ProcessedRow) : List ℚ := l.map fun p => p.row.time

end DigitalTwin

namespace DigitalTwin

/-- C1: every processed row's expected AC power equals
`rated_dc_capacity * (irradiance/1000) * (1 + temp_coefficient*(module_temp-25)) * inverter_efficiency`
at the default parameters 6000, -0.004, 0.95; at irradiance 1000 and
module temperature 25 it is exactly 5700. -/
theorem C1_expected_power_formula :
    (∀ (name : String) (r : Row),
      (processRow name r).expected =
        6000 * (r.irradiance / 1000) * (1 + (-(4/1000)) * (r.moduleTemp - 25)) * (95/100)) ∧
    expectedACPower defaultParams 1000 25 = 5700 := by
  constructor
  · intro name r
    rfl
  · norm_num [expectedACPower, defaultParams]

/-- C2: a sample is classified Alert iff the absolute deviation is at
least 10, and the boundary value 10 itself is Alert, not OK. -/
theorem C2_status_threshold :
    (∀ dev : ℚ, statusOf dev = "Alert" ↔ 10 ≤ |dev|) ∧ statusOf 10 = "Alert" := by
  constructor
  · intro dev
    unfold statusOf
    split_ifs with h
    · simp only [show ("OK" = "Alert") = False by decide, false_iff]
      linarith
    · simp only [show ("Alert" = "Alert") = True by decide, true_iff]
      linarith
  · norm_num [statusOf]

/-- C5: the deviation is `100*(actual-expected)/denom(expected)` with
`denom(x) = x` for nonzero `x` and 1 at zero; with expected 0 it equals
`100*actual`, and with actual equal to a nonzero expected it is 0 and the
status is OK. -/
theorem C5_deviation_zero_guard :
    (∀ a e : ℚ, deviationPct a e = 100 * (a - e) / (if e = 0 then 1 else e)) ∧
    (∀ a : ℚ, deviationPct a 0 = 100 * a) ∧
    (∀ E : ℚ, E ≠ 0 → deviationPct E E = 0 ∧ statusOf (deviationPct E E) = "OK") := by
  refine ⟨fun a e => rfl, fun a => by norm_num [deviationPct, denomGuard], fun E hE => ?_⟩
  have h0 : deviationPct E E = 0 := by
    simp [deviationPct]
  exact ⟨h0, by norm_num [h0, statusOf]⟩

/-- Witness for C5 at actual 7 with expected 0 and at actual = expected = 5. -/
theorem C5_witness :
    deviationPct 7 0 = 700 ∧ (5:ℚ) ≠ 0 ∧
    deviationPct 5 5 = 0 ∧ statusOf (deviationPct 5 5) = "OK" := by
  refine ⟨(C5_deviation_zero_guard.2.1 7).trans (by norm_num), by norm_num, ?_, ?_⟩
  · exact (C5_deviation_zero_guard.2.2 5 (by norm_num)).1
  · exact (C5_deviation_zero_guard.2.2 5 (by norm_num)).2

/-- C6 counterexample: nothing clamps negative model values — at
irradiance 1000 and module temperature 300 the returned expected power is
-570, strictly negative. -/
theorem C6_counterexample :
    expectedACPower defaultParams 1000 300 = -570 ∧
    expectedACPower defaultParams 1000 300 < 0 := by
  norm_num [expectedACPower, defaultParams]

/-- C6 amended: the code applies no clamp, so expected power can be
negative at extreme temperatures; it is nonnegative whenever irradiance is
nonnegative and the temperature derating factor is, i.e. module
temperature at most 275. -/
theorem C6_expected_nonneg (irr temp : ℚ) (h1 : 0 ≤ irr) (h2 : temp ≤ 275) :
    0 ≤ expectedACPower defaultParams irr temp := by
  unfold expectedACPower defaultParams
  nlinarith [mul_nonneg h1 (show (0:ℚ) ≤ 1 + -(4/1000) * (temp - 25) by linarith)]

/-- Witness for C6 amended at irradiance 800, module temperature 30. -/
theorem C6_witness :
    (0:ℚ) ≤ 800 ∧ (30:ℚ) ≤ 275 ∧ 0 ≤ expectedACPower defaultParams 800 30 :=
  ⟨by norm_num, by norm_num, C6_expected_nonneg 800 30 (by norm_num) (by norm_num)⟩

/-- C7 counterexample: at fixed module temperature 300 the expected power
strictly decreases as irradiance rises from 0 to 1000, so the model is not
non-decreasing in irradiance at every fixed temperature. -/
theorem C7_counterexample :
    expectedACPower defaultParams 1000 300 < expectedACPower defaultParams 0 300 := by
  norm_num [expectedACPower, defaultParams]

/-- C7 amended: expected power is non-decreasing in irradiance whenever
the temperature derating factor `1 + gamma*(temp-25)` is nonnegative, and
non-increasing in module temperature whenever irradiance is nonnegative. -/
theorem C7_monotone (g1 g2 t t1 t2 g : ℚ)
    (hg : g1 ≤ g2) (ht : 0 ≤ 1 + defaultParams.gamma * (t - 25))
    (ht12 : t1 ≤ t2) (hgpos : 0 ≤ g) :
    expectedACPower defaultParams g1 t ≤ expectedACPower defaultParams g2 t ∧
    expectedACPower defaultParams g t2 ≤ expectedACPower defaultParams g t1 := by
  unfold expectedACPower defaultParams at *
  constructor
  · nlinarith [mul_nonneg (sub_nonneg.mpr hg) ht]
  · nlinarith [mul_nonneg hgpos (sub_nonneg.mpr ht12)]

/-- Witness for C7 amended at irradiances 100 and 200, temperature 30, and
temperatures 20 and 40 at irradiance 500. -/
theorem C7_witness :
    (100:ℚ) ≤ 200 ∧ (0:ℚ) ≤ 1 + defaultParams.gamma * (30 - 25) ∧
    (20:ℚ) ≤ 40 ∧ (0:ℚ) ≤ 500 ∧
    (expectedACPower defaultParams 100 30 ≤ expectedACPower defaultParams 200 30 ∧
     expectedACPower defaultParams 500 40 ≤ expectedACPower defaultParams 500 20) :=
  ⟨by norm_num, by norm_num [defaultParams], by norm_num, by norm_num,
   C7_monotone 100 200 30 20 40 500 (by norm_num) (by norm_num [defaultParams])
     (by norm_num) (by norm_num)⟩

/-- C10 counterexample: at irradiance 800 and module temperature 30 the
model gives 4468.8 W, not the 4471.2 W stated. -/
theorem C10_counterexample :
    expectedACPower defaultParams 800 30 ≠ 44712/10 := by
  norm_num [expectedACPower, defaultParams]

/-- C10 amended: the scenario yields expected power exactly 4468.8 W
(= 22344/5); with actual 380 W the deviation is within 0.01 of -91.5 and
the status is Alert. -/
theorem C10_scenario :
    expectedACPower defaultParams 800 30 = 22344/5 ∧
    |deviationPct 380 (expectedACPower defaultParams 800 30) - (-(915/10))| < 1/100 ∧
    statusOf (deviationPct 380 (expectedACPower defaultParams 800 30)) = "Alert" := by
  have he : expectedACPower defaultParams 800 30 = 22344/5 := by
    norm_num [expectedACPower, defaultParams]
  have hd : deviationPct 380 (expectedACPower defaultParams 800 30) = -(13450/147) := by
    rw [he]
    norm_num [deviationPct, denomGuard]
  refine ⟨he, ?_, ?_⟩
  · rw [hd]
    rw [abs_lt]
    norm_num
  · rw [hd]
    rw [statusOf]
    rw [abs_of_neg (by norm_num)]
    norm_num

end DigitalTwin

namespace DigitalTwin

/-- Summing the scaled irradiance column factors out the division. -/
theorem sum_irr_div (rows : List Row) :
    (rows.map fun r => r.irradiance / 1000).sum = sumIrr rows / 1000 := by
  induction rows with
  | nil => simp [sumIrr]
  | cons r rs ih =>
      simp only [List.map_cons, List.sum_cons, ih, sumIrr, add_div]

/-- C3 counterexample: a nonempty window whose irradiance is all zero has
theoretical energy 0, yet the PR metric is still computed (the only guard
in the code is window non-emptiness). -/
theorem C3_counterexample :
    theoreticalEnergy 1 [mkRow 0 0 25 5] = 0 ∧ prMetric [mkRow 0 0 25 5] ≠ none := by
  constructor
  · norm_num [theoreticalEnergy, mkRow, defaultParams]
  · simp [prMetric]

/-- C3 amended: on a nonempty window with positive theoretical energy the
code's PR equals 100 times actual energy over theoretical energy for every
positive sampling interval (the interval cancels); when the theoretical
energy is zero the code still divides, there is no undefined guard. -/
theorem C3_pr_formula (dt : ℚ) (rows : List Row) (hdt : 0 < dt)
    (hne : rows ≠ []) (hth : 0 < theoreticalEnergy dt rows) :
    prMetric rows = some (100 * (actualEnergy dt rows / theoreticalEnergy dt rows)) := by
  have hIrr : 0 < sumIrr rows := by
    rw [theoreticalEnergy, sum_irr_div, defaultParams] at hth
    nlinarith [hth, hdt]
  rw [prMetric, if_neg hne]
  congr 1
  rw [prValue, actualEnergy, theoreticalEnergy, sum_irr_div, defaultParams]
  have hdt0 : dt ≠ 0 := ne_of_gt hdt
  have hIrr0 : sumIrr rows ≠ 0 := ne_of_gt hIrr
  field_simp
  ring

/-- Witness for C3 amended: one sample at STC with actual power 5700. -/
theorem C3_witness :
    (0:ℚ) < 1 ∧ ([mkRow 0 1000 25 5700] : List Row) ≠ [] ∧
    0 < theoreticalEnergy 1 [mkRow 0 1000 25 5700] ∧
    prMetric [mkRow 0 1000 25 5700] =
      some (100 * (actualEnergy 1 [mkRow 0 1000 25 5700] /
        theoreticalEnergy 1 [mkRow 0 1000 25 5700])) :=
  ⟨by norm_num, by simp,
   by norm_num [theoreticalEnergy, mkRow, defaultParams],
   C3_pr_formula 1 _ (by norm_num) (by simp)
     (by norm_num [theoreticalEnergy, mkRow, defaultParams])⟩

/-- C4 counterexample: for a single STC sample with actual power 6000 and
sampling interval 1 hour, the spec formula gives CUF 1 (100 as a percent),
but the code gives 25/18 because its denominator is the fixed 72-hour
window, not sample_count times dt_hours. -/
theorem C4_counterexample :
    specCUF 1 [mkRow 0 1000 25 6000] = 1 ∧
    cufValue [mkRow 0 1000 25 6000] ≠ specCUF 1 [mkRow 0 1000 25 6000] ∧
    cufValue [mkRow 0 1000 25 6000] ≠ 100 * specCUF 1 [mkRow 0 1000 25 6000] := by
  norm_num [cufValue, specCUF, actualEnergy, sumPac, mkRow, defaultParams]

/-- C4 amended: on a nonempty window the code's CUF equals 100 times
actual energy over rated capacity times 72 hours (the fixed 3-day window
length), for every nonzero sampling interval; the denominator never uses
sample_count times dt_hours. -/
theorem C4_cuf_formula (dt : ℚ) (rows : List Row) (hdt : dt ≠ 0) (hne : rows ≠ []) :
    cufMetric rows =
      some (100 * (actualEnergy dt rows / (defaultParams.pdc0 * 72 * dt))) := by
  rw [cufMetric, if_neg hne]
  congr 1
  rw [cufValue, actualEnergy, defaultParams]
  field_simp
  ring

/-- Witness for C4 amended: one sample with actual power 6000, interval 1. -/
theorem C4_witness :
    (1:ℚ) ≠ 0 ∧ ([mkRow 0 1000 25 6000] : List Row) ≠ [] ∧
    cufMetric [mkRow 0 1000 25 6000] =
      some (100 * (actualEnergy 1 [mkRow 0 1000 25 6000] /
        (defaultParams.pdc0 * 72 * 1))) :=
  ⟨by norm_num, by simp, C4_cuf_formula 1 _ (by norm_num) (by simp)⟩

/-- C8 counterexample: a file whose rows are out of order and contain a
duplicate timestamp passes validation unchanged — nothing sorts the rows
and nothing rejects the duplicate. -/
theorem C8_counterexample :
    validateFile requiredCols [mkRow 2 0 25 0, mkRow 1 0 25 0, mkRow 1 0 25 0] =
      some [mkRow 2 0 25 0, mkRow 1 0 25 0, mkRow 1 0 25 0] ∧
    ¬ List.Chain' (· < ·)
        (([mkRow 2 0 25 0, mkRow 1 0 25 0, mkRow 1 0 25 0].map Row.time)) := by
  constructor
  · rw [validateFile]
    simp [requiredCols]
  · simp [mkRow]

/-- C8 amended: validation only checks that the required columns are
present; a file that has them is accepted with its rows exactly as
parsed — in file order, duplicate timestamps included. -/
theorem C8_validate_passthrough (cols : List String) (rows : List Row)
    (h : (requiredCols.all fun c => cols.contains c) = true) :
    validateFile cols rows = some rows := by
  rw [validateFile]
  rw [if_pos h]

/-- Witness for C8 amended: the required columns themselves with a
duplicate-timestamp row list are accepted unchanged. -/
theorem C8_witness :
    ((requiredCols.all fun c => requiredCols.contains c) = true) ∧
    validateFile requiredCols [mkRow 1 0 25 0, mkRow 1 0 25 0] =
      some [mkRow 1 0 25 0, mkRow 1 0 25 0] :=
  ⟨by decide, C8_validate_passthrough requiredCols _ (by decide)⟩

/-- C9 counterexample: two files whose time ranges are interleaved produce
a fleet dataset ordered file block by file block, not globally by
timestamp. -/
theorem C9_counterexample :
    timesOf (concatAll [("A", [mkRow 10 0 25 0]), ("B", [mkRow 5 0 25 0])]) = [10, 5] ∧
    ¬ List.Chain' (· ≤ ·)
        (timesOf (concatAll [("A", [mkRow 10 0 25 0]), ("B", [mkRow 5 0 25 0])])) := by
  have h : timesOf (concatAll [("A", [mkRow 10 0 25 0]), ("B", [mkRow 5 0 25 0])]) =
      [10, 5] := by
    simp [timesOf, concatAll, processFile, processRow, mkRow]
  refine ⟨h, ?_⟩
  rw [h]
  simp only [List.chain'_cons, List.chain'_singleton, and_true]
  norm_num

/-- C9 amended: the alert stream is the order-preserving filter of the
fleet dataset — a sublist of it — so any ordering the fleet dataset's
timestamps satisfy is preserved; but the fleet dataset itself is only
file-block ordered, not globally time-ordered. -/
theorem C9_alerts_preserve_order (files : List (String × List Row))
    (R : ℚ → ℚ → Prop) (h : List.Pairwise R (timesOf (concatAll files))) :
    (alertsOf files).Sublist (concatAll files) ∧
    List.Pairwise R (timesOf (alertsOf files)) := by
  have hsub : (alertsOf files).Sublist (concatAll files) := List.filter_sublist _
  exact ⟨hsub, List.Pairwise.sublist (List.Sublist.map _ hsub) h⟩

/-- Witness for C9 amended: two files in chronological order; the alert
stream keeps that order. -/
theorem C9_witness :
    List.Pairwise (· ≤ ·)
      (timesOf (concatAll [("A", [mkRow 1 0 25 0]), ("B", [mkRow 2 0 25 0])])) ∧
    ((alertsOf [("A", [mkRow 1 0 25 0]), ("B", [mkRow 2 0 25 0])]).Sublist
        (concatAll [("A", [mkRow 1 0 25 0]), ("B", [mkRow 2 0 25 0])]) ∧
      List.Pairwise (· ≤ ·)
        (timesOf (alertsOf [("A", [mkRow 1 0 25 0]), ("B", [mkRow 2 0 25 0])]))) := by
  have h : List.Pairwise (· ≤ ·)
      (timesOf (concatAll [("A", [mkRow 1 0 25 0]), ("B", [mkRow 2 0 25 0])])) := by
    simp [timesOf, concatAll, processFile, processRow, mkRow]
  exact ⟨h, C9_alerts_preserve_order _ (· ≤ ·) h⟩

end DigitalTwin
